import Mathlib

/-!
Shallow embedding of the client-side valuation logic of the Vietnam Stock
Valuation application (`app.js`, with `index.html` supplying the widget
attributes and a second revision of `app.js` agreeing on every function
treated here).  JavaScript numbers are modelled as exact rationals extended
with the IEEE special values `Infinity`, `-Infinity` and `NaN`; DOM writes
are modelled as the strings the code would render; network effects are
modelled as the list of requests an action issues.
-/

namespace Valuation

/-- A JavaScript number: a finite value (modelled exactly as a rational) or
one of the IEEE special values.  The negative zero is identified with zero,
which is faithful for every computation treated here. -/
inductive JSNum where
  | num (q : ℚ)
  | posInf
  | negInf
  | nan
deriving DecidableEq

/-- JavaScript subtraction `a - b`. -/
def jsSub : JSNum → JSNum → JSNum
  | .nan, _ => .nan
  | _, .nan => .nan
  | .num a, .num b => .num (a - b)
  | .posInf, .posInf => .nan
  | .posInf, _ => .posInf
  | .negInf, .negInf => .nan
  | .negInf, _ => .negInf
  | .num _, .posInf => .negInf
  | .num _, .negInf => .posInf

/-- JavaScript division `a / b`: a finite value divided by `0` gives
`Infinity`, `-Infinity` or `NaN` according to the sign of the dividend. -/
def jsDiv : JSNum → JSNum → JSNum
  | .nan, _ => .nan
  | _, .nan => .nan
  | .num a, .num b =>
      if b = 0 then (if a > 0 then .posInf else if a < 0 then .negInf else .nan)
      else .num (a / b)
  | .posInf, .num b => if b < 0 then .negInf else .posInf
  | .negInf, .num b => if b < 0 then .posInf else .negInf
  | .num _, .posInf => .num 0
  | .num _, .negInf => .num 0
  | .posInf, _ => .nan
  | .negInf, _ => .nan

/-- JavaScript multiplication `a * b`. -/
def jsMul : JSNum → JSNum → JSNum
  | .nan, _ => .nan
  | _, .nan => .nan
  | .num a, .num b => .num (a * b)
  | .posInf, .num b => if b > 0 then .posInf else if b < 0 then .negInf else .nan
  | .negInf, .num b => if b > 0 then .negInf else if b < 0 then .posInf else .nan
  | .num a, .posInf => if a > 0 then .posInf else if a < 0 then .negInf else .nan
  | .num a, .negInf => if a > 0 then .negInf else if a < 0 then .posInf else .nan
  | .posInf, .posInf => .posInf
  | .posInf, .negInf => .negInf
  | .negInf, .posInf => .negInf
  | .negInf, .negInf => .posInf

/-- JavaScript strict comparison `a > b`; any comparison with `NaN` is false. -/
def jsGt : JSNum → JSNum → Bool
  | .nan, _ => false
  | _, .nan => false
  | .num a, .num b => decide (a > b)
  | .posInf, .posInf => false
  | .posInf, _ => true
  | .negInf, _ => false
  | .num _, .posInf => false
  | .num _, .negInf => true

/-- JavaScript strict comparison `a < b`. -/
def jsLt (a b : JSNum) : Bool := jsGt b a

/-- JavaScript truthiness test on a number (`!value` is true exactly for
`0` and `NaN`). -/
def jsFalsy : JSNum → Bool
  | .num q => decide (q = 0)
  | .nan => true
  | _ => false

/-- JavaScript `isNaN` on a number. -/
def jsIsNaN : JSNum → Bool
  | .nan => true
  | _ => false

/-- Rendering of `n.toFixed(1)`: round to one decimal digit (ties away from
zero on the magnitude) and print; the special values print as in JS. -/
def jsToFixed1 : JSNum → String
  | .nan => "NaN"
  | .posInf => "Infinity"
  | .negInf => "-Infinity"
  | .num q =>
      let n : ℕ := (Int.floor (|q| * 10 + 1/2)).toNat
      (if q < 0 then "-" else "") ++ toString (n / 10) ++ "." ++ toString (n % 10)

/-- Rendering of `n.toFixed(2)`. -/
def jsToFixed2 : JSNum → String
  | .nan => "NaN"
  | .posInf => "Infinity"
  | .negInf => "-Infinity"
  | .num q =>
      let n : ℕ := (Int.floor (|q| * 100 + 1/2)).toNat
      let r := n % 100
      (if q < 0 then "-" else "") ++ toString (n / 100) ++ "." ++
        (if r < 10 then "0" ++ toString r else toString r)

/-- Left-pads a three-digit group with zeros. -/
def padTo3 (r : ℕ) : String :=
  if r < 10 then "00" ++ toString r
  else if r < 100 then "0" ++ toString r
  else toString r

/-- Fuel-driven digit grouping (the fuel bounds the number of groups). -/
def groupThousandsAux : ℕ → ℕ → String
  | 0, n => toString n
  | fuel + 1, n =>
      if n < 1000 then toString n
      else groupThousandsAux fuel (n / 1000) ++ "." ++ padTo3 (n % 1000)

/-- Digit grouping with `.` separators as `Intl.NumberFormat` with the
`vi-VN` locale produces. -/
def groupThousands (n : ℕ) : String := groupThousandsAux n n

/-- Rendering of `Intl.NumberFormat` for the `vi-VN` locale with currency
`VND` and zero fraction digits: round to an integer and group digits. -/
def formatVND : JSNum → String
  | .nan => "NaN ₫"
  | .posInf => "∞ ₫"
  | .negInf => "-∞ ₫"
  | .num q =>
      let n : ℕ := (Int.floor (|q| + 1/2)).toNat
      (if q < 0 then "-" else "") ++ groupThousands n ++ " ₫"

/-- Embeds `formatCurrency` (app.js 976-984): the guard
`if (!value || isNaN(value)) return '--'` followed by `Intl` rendering.
`none` models a missing (`undefined`) argument. -/
def formatCurrency : Option JSNum → String
  | none => "--"
  | some v => if jsFalsy v || jsIsNaN v then "--" else formatVND v

/-- Embeds `formatNumber` (app.js 999-1002): the same falsy/NaN guard
followed by `value.toFixed(2)`. -/
def formatNumber : Option JSNum → String
  | none => "--"
  | some v => if jsFalsy v || jsIsNaN v then "--" else jsToFixed2 v

/-- Embeds `formatPercent` (app.js 1004-1007): the same falsy/NaN guard
followed by `value.toFixed(1)` and a percent sign. -/
def formatPercent : Option JSNum → String
  | none => "--"
  | some v => if jsFalsy v || jsIsNaN v then "--" else jsToFixed1 v ++ "%"

/-- The upside computation the code inlines as
`((weightedValue - currentPrice) / currentPrice) * 100`
(app.js 590 and 605), under JavaScript arithmetic. -/
def computeUpsidePercent (targetPrice currentPrice : JSNum) : JSNum :=
  jsMul (jsDiv (jsSub targetPrice currentPrice) currentPrice) (.num 100)

/-- The rendered diff text the code writes, from the template
`(weightedDiff > 0 ? '+' : '') + weightedDiff.toFixed(1) + '%'`. -/
def signedDiffText (d : JSNum) : String :=
  (if jsGt d (.num 0) then "+" else "") ++ jsToFixed1 d ++ "%"

/-- Character-list test used to embed `String.prototype.includes`:
`charsBeginWith n h` holds when `n` is an initial segment of `h`. -/
def charsBeginWith : List Char → List Char → Bool
  | [], _ => true
  | _ :: _, [] => false
  | a :: as, b :: bs => a == b && charsBeginWith as bs

/-- Character-list test: the needle occurs contiguously in the haystack. -/
def charsContain (needle : List Char) : List Char → Bool
  | [] => charsBeginWith needle []
  | c :: rest => charsBeginWith needle (c :: rest) || charsContain needle rest

/-- Embeds the JavaScript call `s.includes(sub)`. -/
def jsIncludes (s sub : String) : Bool := charsContain sub.data s.data

/-- ASCII upper-casing of one character, as `toUpperCase` acts on the
symbols in play. -/
def upChar (c : Char) : Char :=
  if 'a' ≤ c ∧ c ≤ 'z' then Char.ofNat (c.toNat - 32) else c

/-- Embeds the JavaScript call `s.toUpperCase()`. -/
def jsToUpperCase (s : String) : String := ⟨s.data.map upChar⟩

/-- Embeds the JavaScript call `s.trim()`: strip leading and trailing
whitespace. -/
def jsTrim (s : String) : String :=
  ⟨((s.data.dropWhile Char.isWhitespace).reverse.dropWhile Char.isWhitespace).reverse⟩

/-- A recommendation as the code derives it: the displayed label, the CSS
status category and the reasoning text. -/
structure RecOutput where
  recommendation : String
  status : String
  reasoning : String
deriving DecidableEq

/-- The local threshold classifier: the `else` branch of
`updateRecommendation` (app.js 613-627). -/
def classifyRecommendation (upside : JSNum) : RecOutput :=
  if jsGt upside (.num 15) then
    { recommendation := "BUY", status := "positive"
      reasoning := "Significant undervaluation detected - upside potential above 15%" }
  else if jsLt upside (.num (-15)) then
    { recommendation := "SELL", status := "negative"
      reasoning := "Significant overvaluation detected - downside risk above 15%" }
  else
    { recommendation := "HOLD", status := "neutral"
      reasoning := "Stock is fairly valued - upside/downside within 15% range" }

/-- The four user-assigned model weights (`this.modelWeights`), percentages. -/
structure ModelWeights where
  fcfe : ℚ
  fcff : ℚ
  justified_pe : ℚ
  justified_pb : ℚ
deriving DecidableEq

/-- The six assumption scalars (`this.assumptions`). -/
structure Assumptions where
  revenueGrowth : ℚ
  terminalGrowth : ℚ
  wacc : ℚ
  requiredReturn : ℚ
  taxRate : ℚ
  projectionYears : ℤ
deriving DecidableEq

/-- The market-data snapshot returned by `GET /api/app-data/{symbol}`, with
the fields the treated code paths read.  An `Option` field models a value
the backend may omit (`undefined`). -/
structure StockData where
  success : Bool
  error : Option String
  current_price : ℚ
  shares_outstanding : Option ℚ
  eps : Option ℚ
  book_value_per_share : Option ℚ
  total_debt : Option ℚ
deriving DecidableEq

/-- The historical series returned by `GET /api/historical-chart-data`. -/
structure ChartData where
  years : List ℤ
  roa_data : List ℚ
  roe_data : List ℚ
  pe_data : List ℚ
  pb_data : List ℚ
  current_ratio_data : List ℚ
  quick_ratio_data : List ℚ
  cash_ratio_data : List ℚ
deriving DecidableEq

/-- The body of the historical-chart response (`success` flag plus data). -/
structure ChartBody where
  success : Bool
  data : ChartData
deriving DecidableEq

/-- The `market_comparison` object of the valuation response. -/
structure MarketComparison where
  recommendation : String
deriving DecidableEq

/-- The `summary` object of the valuation response. -/
structure SummaryData where
  confidence : Option String
deriving DecidableEq

/-- The `financial_data` object of the valuation response. -/
structure FinancialData where
  shares_outstanding : Option ℚ
  eps : Option ℚ
deriving DecidableEq

/-- The `valuations` object of the valuation response: the four per-share
model values (each possibly absent) and the engine's weighted average. -/
structure EngineValuations where
  fcfe : Option ℚ
  fcff : Option ℚ
  justified_pe : Option ℚ
  justified_pb : Option ℚ
  weighted_average : ℚ
deriving DecidableEq

/-- The body of `POST /api/valuation/{symbol}`'s response. -/
structure ValuationResponse where
  success : Bool
  error : Option String
  valuations : EngineValuations
  financial_data : FinancialData
  market_comparison : Option MarketComparison
  summary : Option SummaryData
deriving DecidableEq

/-- One entry of `this.valuationResults`: the per-share value and, for the
cash-flow models, the derived equity value (a JavaScript product, `NaN`
when an operand is absent). -/
structure ShareResult where
  shareValue : Option ℚ
  equityValue : Option JSNum
deriving DecidableEq

/-- The held `this.valuationResults` object as `calculateValuation` builds
it (app.js 474-493). -/
structure ValuationResults where
  fcfe : ShareResult
  fcff : ShareResult
  justified_pe : ShareResult
  justified_pb : ShareResult
  weighted_average : ℚ
  summary : Option SummaryData
  market_comparison : Option MarketComparison
  financial_data : FinancialData
deriving DecidableEq

/-- The body sent by `calculateValuation` (`requestData`, app.js 444-454). -/
structure ValuationRequest where
  revenueGrowth : ℚ
  terminalGrowth : ℚ
  wacc : ℚ
  requiredReturn : ℚ
  taxRate : ℚ
  projectionYears : ℤ
  roe : ℚ
  payoutRatio : ℚ
  modelWeights : ModelWeights
deriving DecidableEq

/-- One HTTP request the application can issue. -/
inductive NetRequest where
  | getAppData (symbol : String)
  | getHistoricalChartData (symbol : String)
  | postValuation (symbol : String) (body : ValuationRequest)
deriving DecidableEq

/-- The outcome of one `fetch`: the promise rejected (network failure),
the request was aborted by the watchdog timer, or a response arrived with
a status code and a parsed body. -/
inductive Fetched (α : Type) where
  | networkFailed
  | aborted
  | got (status : ℕ) (body : α)
deriving DecidableEq

/-- The `Response.ok` predicate: status in the 200-299 range. -/
def statusOk (status : ℕ) : Bool := 200 ≤ status && status ≤ 299

/-- A status-banner message (`showStatus`): text and kind. -/
structure Status where
  message : String
  kind : String
deriving DecidableEq

/-- The mutable session fields of `StockValuationApp` that the treated
actions read or write. -/
structure AppState where
  currentStock : Option String
  stockData : Option StockData
  historicalData : Option ChartData
  assumptions : Assumptions
  modelWeights : ModelWeights
  valuationResults : Option ValuationResults
deriving DecidableEq

/-- The result of a network-bound action: the new session state, the
requests it issued, and the final status banner. -/
structure NetActionOut where
  state : AppState
  requests : List NetRequest
  status : Status
deriving DecidableEq

/-- The strings `updateWeightedResults` (app.js 587-600) writes into the
weighted-result widgets. -/
structure WeightedDisplay where
  weightedResult : String
  weightedDiffText : String
  weightedDiffClass : String
  targetPrice : String
  summaryPotential : String
  returnValue : String
deriving DecidableEq

/-- Embeds `updateWeightedResults`: re-reads the held
`valuationResults.weighted_average` and the current price and renders the
weighted value and its diff percentage. -/
def updateWeightedResults (vr : ValuationResults) (currentPrice : ℚ) : WeightedDisplay :=
  let weightedValue := vr.weighted_average
  let weightedDiff := computeUpsidePercent (.num weightedValue) (.num currentPrice)
  { weightedResult := formatCurrency (some (.num weightedValue))
    weightedDiffText := signedDiffText weightedDiff
    weightedDiffClass := "result-diff " ++ (if jsGt weightedDiff (.num 0) then "positive" else "negative")
    targetPrice := formatCurrency (some (.num weightedValue))
    summaryPotential := jsToFixed1 weightedDiff ++ "%"
    returnValue := jsToFixed1 weightedDiff ++ "%" }

/-- Embeds `updateRecommendation` (app.js 602-639): when the engine
supplied a `market_comparison`, its recommendation string is used verbatim
and the category comes from a substring test; otherwise the local
threshold classifier runs on the upside percentage. -/
def updateRecommendation (vr : ValuationResults) (currentPrice : ℚ) : RecOutput :=
  let weightedValue := vr.weighted_average
  let upside := computeUpsidePercent (.num weightedValue) (.num currentPrice)
  match vr.market_comparison with
  | some mc =>
      { recommendation := mc.recommendation
        status :=
          if jsIncludes mc.recommendation "BUY" then "positive"
          else if jsIncludes mc.recommendation "SELL" then "negative"
          else "neutral"
        reasoning :=
          "Based on 4-model average of " ++ formatCurrency (some (.num weightedValue)) ++
          " vs current price " ++ formatCurrency (some (.num currentPrice)) }
  | none => classifyRecommendation upside

/-- Embeds `updateTotalWeight` (app.js 314-325): the rendered total and
the CSS class flagging whether it is acceptably close to 100.  The test
`Math.abs(total - 100) < 0.1` is idealized here over exact rationals; the
program computes it in binary64, where a deviation of exactly 0.1 is not
representable (e.g. weights 25/25/25/25.1 give a double deviation just
below 0.1), so no theorem of this file rests on this flag's behavior at
the 0.1 boundary. -/
def updateTotalWeight (w : ModelWeights) : String × String :=
  let total := w.fcfe + w.fcff + w.justified_pe + w.justified_pb
  (jsToFixed1 (.num total),
   if |total - 100| < 1/10 then "weight-total-correct" else "weight-total-incorrect")

/-- The slider whose `input` event fired, from the element id the handler
switches on. -/
inductive SliderId where
  | fcfeWeight
  | fcffWeight
  | peWeight
  | pbWeight
deriving DecidableEq

/-- The full output of a weight-changing action: new state, requests
issued (always none in the code), the re-rendered total-weight widget and,
when `valuationResults` is populated, the re-rendered weighted result and
recommendation. -/
structure WeightsActionOut where
  state : AppState
  requests : List NetRequest
  totalDisplay : String × String
  weightedDisplay : Option WeightedDisplay
  recommendationDisplay : Option RecOutput
deriving DecidableEq

/-- The refresh `updateModelWeights` and `normalizeWeights` perform after
mutating the weights: update the total widget and, if results are held,
re-render the weighted value and recommendation.  Reading the current
price presumes the market snapshot is loaded, which the code guarantees
whenever `valuationResults` is populated. -/
def refreshAfterWeightChange (s : AppState) : WeightsActionOut :=
  { state := s
    requests := []
    totalDisplay := updateTotalWeight s.modelWeights
    weightedDisplay :=
      match s.valuationResults, s.stockData with
      | some vr, some sd => some (updateWeightedResults vr sd.current_price)
      | _, _ => none
    recommendationDisplay :=
      match s.valuationResults, s.stockData with
      | some vr, some sd => some (updateRecommendation vr sd.current_price)
      | _, _ => none }

/-- Embeds `updateModelWeights` (app.js 279-305): write the slider's value
into the addressed weight, then refresh the derived displays. -/
def updateModelWeights (s : AppState) (slider : SliderId) (value : ℚ) : WeightsActionOut :=
  let w := s.modelWeights
  let w' :=
    match slider with
    | .fcfeWeight => { w with fcfe := value }
    | .fcffWeight => { w with fcff := value }
    | .peWeight => { w with justified_pe := value }
    | .pbWeight => { w with justified_pb := value }
  refreshAfterWeightChange { s with modelWeights := w' }

/-- Embeds `normalizeWeights` (app.js 327-345): reset all four weights to
25 and refresh the derived displays. -/
def normalizeWeights (s : AppState) : WeightsActionOut :=
  refreshAfterWeightChange
    { s with modelWeights := { fcfe := 25, fcff := 25, justified_pe := 25, justified_pb := 25 } }

/-- The cleared-session effect of the data-load failure path (app.js
424-427 plus `clearDisplay`, which nulls `valuationResults` at its end). -/
def clearSession (s : AppState) : AppState :=
  { s with stockData := none, currentStock := none, historicalData := none,
           valuationResults := none }

/-- Embeds `loadStockData` (app.js 358-433).  The two fetch outcomes are
inputs; the chart request is only issued when the stock fetch itself did
not reject.  Every thrown error lands in the catch block, which clears the
session. -/
def loadStockData (s : AppState) (input : String)
    (stockResp : Fetched StockData) (chartResp : Fetched ChartBody) : NetActionOut :=
  let symbol := jsToUpperCase (jsTrim input)
  if symbol = "" then
    { state := s, requests := [], status := ⟨"Please enter a stock symbol", "error"⟩ }
  else
    let stockReq := NetRequest.getAppData symbol
    let chartReq := NetRequest.getHistoricalChartData symbol
    match stockResp with
    | .networkFailed =>
        { state := clearSession s, requests := [stockReq]
          status := ⟨"Data loading error: Failed to fetch", "error"⟩ }
    | .aborted =>
        { state := clearSession s, requests := [stockReq]
          status := ⟨"Timeout - Please try again later.", "error"⟩ }
    | .got status body =>
        match chartResp with
        | .networkFailed =>
            { state := clearSession s, requests := [stockReq, chartReq]
              status := ⟨"Data loading error: Failed to fetch", "error"⟩ }
        | .aborted =>
            { state := clearSession s, requests := [stockReq, chartReq]
              status := ⟨"Timeout - Please try again later.", "error"⟩ }
        | .got cStatus cBody =>
            if ¬ statusOk status then
              { state := clearSession s, requests := [stockReq, chartReq]
                status := ⟨"Data loading error: " ++
                  (if status = 404 then "No data found for this stock symbol"
                   else if status = 500 then "Server error while loading data"
                   else "Unable to connect to server"), "error"⟩ }
            else if ¬ body.success then
              { state := clearSession s, requests := [stockReq, chartReq]
                status := ⟨"Data loading error: " ++
                  (body.error.getD "Unable to load data from server"), "error"⟩ }
            else
              { state :=
                  { s with stockData := some body
                           currentStock := some symbol
                           historicalData :=
                             if statusOk cStatus ∧ cBody.success then some cBody.data else none }
                requests := [stockReq, chartReq]
                status := ⟨"Data loaded successfully", "success"⟩ }

/-- The JavaScript `a || b` fallback over possibly-absent numbers, as in
`this.stockData.shares_outstanding || result.financial_data.shares_outstanding`:
a present non-zero value short-circuits, otherwise the fallback is used. -/
def orFalsy (a b : Option ℚ) : Option ℚ :=
  match a with
  | some q => if q = 0 then b else some q
  | none => b

/-- A possibly-absent number as the operand of JavaScript arithmetic
(`undefined` behaves as `NaN`). -/
def jsOfOpt : Option ℚ → JSNum
  | some q => .num q
  | none => .nan

/-- Embeds `calculateValuation` (app.js 435-507).  Without a loaded stock
it refuses; otherwise it posts the assumptions and weights, and on a good
response stores the built `valuationResults`; any thrown error only shows
a status banner. -/
def calculateValuation (s : AppState) (resp : Fetched ValuationResponse) : NetActionOut :=
  match s.currentStock with
  | none => { state := s, requests := [], status := ⟨"Please load company data first", "error"⟩ }
  | some sym =>
      let req := NetRequest.postValuation sym
        { revenueGrowth := s.assumptions.revenueGrowth
          terminalGrowth := s.assumptions.terminalGrowth
          wacc := s.assumptions.wacc
          requiredReturn := s.assumptions.requiredReturn
          taxRate := s.assumptions.taxRate
          projectionYears := s.assumptions.projectionYears
          roe := 15
          payoutRatio := 40
          modelWeights := s.modelWeights }
      match resp with
      | .networkFailed =>
          { state := s, requests := [req]
            status := ⟨"Error calculating valuation: Failed to fetch", "error"⟩ }
      | .aborted =>
          { state := s, requests := [req]
            status := ⟨"Error calculating valuation: The user aborted a request.", "error"⟩ }
      | .got status body =>
          if ¬ statusOk status then
            { state := s, requests := [req]
              status := ⟨"Error calculating valuation: HTTP error! status: " ++ toString status,
                         "error"⟩ }
          else if ¬ body.success then
            { state := s, requests := [req]
              status := ⟨"Error calculating valuation: " ++
                (body.error.getD "Valuation calculation failed"), "error"⟩ }
          else
            let stockShares := (s.stockData.map StockData.shares_outstanding).join
            let shares := orFalsy stockShares body.financial_data.shares_outstanding
            { state :=
                { s with valuationResults := some (
                    { fcfe :=
                        { shareValue := body.valuations.fcfe
                          equityValue := some (jsMul (jsOfOpt body.valuations.fcfe) (jsOfOpt shares)) }
                      fcff :=
                        { shareValue := body.valuations.fcff
                          equityValue := some (jsMul (jsOfOpt body.valuations.fcff) (jsOfOpt shares)) }
                      justified_pe := { shareValue := body.valuations.justified_pe, equityValue := none }
                      justified_pb := { shareValue := body.valuations.justified_pb, equityValue := none }
                      weighted_average := body.valuations.weighted_average
                      summary := body.summary
                      market_comparison := body.market_comparison
                      financial_data := body.financial_data } : ValuationResults) }
              requests := [req]
              status := ⟨"Valuation calculation completed", "success"⟩ }

/-- The four per-share model values of a held result set, as fed to the
weighted-average computation. -/
structure ModelResultsVals where
  fcfe : Option ℚ
  fcff : Option ℚ
  justified_pe : Option ℚ
  justified_pb : Option ℚ
deriving DecidableEq

/-- The per-share values held in `this.valuationResults`. -/
def heldShareValues (vr : ValuationResults) : ModelResultsVals :=
  { fcfe := vr.fcfe.shareValue, fcff := vr.fcff.shareValue
    justified_pe := vr.justified_pe.shareValue, justified_pb := vr.justified_pb.shareValue }

/-- Modelled from the spec: the weighted-average computation
`computeWeightedAverage(results, weights)` is performed by the external
Model Engine (the repository's Python backend, which is not under the
sources given here); per the spec it treats each weight as a percentage,
sums `value_i * (weight_i / 100)` over the four models positionally, with
an absent value contributing zero and no renormalization of the weights. -/
def computeWeightedAverage (results : ModelResultsVals) (weights : ModelWeights) : ℚ :=
  (results.fcfe.getD 0) * (weights.fcfe / 100) +
  (results.fcff.getD 0) * (weights.fcff / 100) +
  (results.justified_pe.getD 0) * (weights.justified_pe / 100) +
  (results.justified_pb.getD 0) * (weights.justified_pb / 100)

/-! Concrete sample data used by witnesses and counterexamples. -/

/-- The default assumptions of the constructor. -/
def sampleAssumptions : Assumptions :=
  { revenueGrowth := 8, terminalGrowth := 3, wacc := 21/2,
    requiredReturn := 12, taxRate := 20, projectionYears := 5 }

/-- A loaded market snapshot with current price 80000. -/
def sampleStock : StockData :=
  { success := true, error := none, current_price := 80000,
    shares_outstanding := some 1000000, eps := some 5000,
    book_value_per_share := some 40000, total_debt := some 0 }

/-- A held result set: the four per-share model values and the engine's
weighted average 98750 (their 25/25/25/25 blend), no engine recommendation. -/
def sampleResults : ValuationResults :=
  { fcfe := { shareValue := some 100000, equityValue := some (.num 100000000000) }
    fcff := { shareValue := some 110000, equityValue := some (.num 110000000000) }
    justified_pe := { shareValue := some 90000, equityValue := none }
    justified_pb := { shareValue := some 95000, equityValue := none }
    weighted_average := 98750
    summary := none
    market_comparison := none
    financial_data := { shares_outstanding := some 1000000, eps := some 5000 } }

/-- A session with data loaded, equal weights and `sampleResults` held. -/
def sampleSession : AppState :=
  { currentStock := some "VCB", stockData := some sampleStock,
    historicalData := none, assumptions := sampleAssumptions,
    modelWeights := { fcfe := 25, fcff := 25, justified_pe := 25, justified_pb := 25 },
    valuationResults := some sampleResults }

/-- The held results with an engine-supplied recommendation string. -/
def mcResults : ValuationResults :=
  { sampleResults with market_comparison := some { recommendation := "STRONG BUY" } }

/-- A valuation-response body whose application-level flag is true (used
with a non-OK HTTP status, where the body is never consulted). -/
def plainValuationBody : ValuationResponse :=
  { success := true, error := none,
    valuations := { fcfe := none, fcff := none, justified_pe := none,
                    justified_pb := none, weighted_average := 0 },
    financial_data := { shares_outstanding := none, eps := none },
    market_comparison := none, summary := none }

/-! Claim theorems. -/

/-- C10: for the input `0` each public numeric formatter returns the
placeholder `--`, the same output as for a missing or `NaN` value, so a
legitimate zero renders identically to missing data. -/
theorem formatters_zero_placeholder :
    formatCurrency (some (.num 0)) = "--" ∧ formatCurrency none = "--" ∧
      formatCurrency (some .nan) = "--" ∧
    formatNumber (some (.num 0)) = "--" ∧ formatNumber none = "--" ∧
      formatNumber (some .nan) = "--" ∧
    formatPercent (some (.num 0)) = "--" ∧ formatPercent none = "--" ∧
      formatPercent (some .nan) = "--" := by
  simp [formatCurrency, formatNumber, formatPercent, jsFalsy, jsIsNaN]

/-- C3: the fallback classifier returns BUY with its fixed justification
exactly when the upside exceeds 15, SELL exactly when it is below -15, and
HOLD otherwise; both boundaries are exclusive, so 15 and -15 yield HOLD. -/
theorem classifyRecommendation_num (u : ℚ) :
    classifyRecommendation (.num u) =
      if u > 15 then
        { recommendation := "BUY", status := "positive",
          reasoning := "Significant undervaluation detected - upside potential above 15%" }
      else if u < -15 then
        { recommendation := "SELL", status := "negative",
          reasoning := "Significant overvaluation detected - downside risk above 15%" }
      else
        { recommendation := "HOLD", status := "neutral",
          reasoning := "Stock is fairly valued - upside/downside within 15% range" } := by
  simp [classifyRecommendation, jsGt, jsLt]

theorem classifyRecommendation_thresholds (u : ℚ) :
    (classifyRecommendation (.num u) =
        { recommendation := "BUY", status := "positive",
          reasoning := "Significant undervaluation detected - upside potential above 15%" } ↔
      u > 15) ∧
    (classifyRecommendation (.num u) =
        { recommendation := "SELL", status := "negative",
          reasoning := "Significant overvaluation detected - downside risk above 15%" } ↔
      u < -15) ∧
    (classifyRecommendation (.num u) =
        { recommendation := "HOLD", status := "neutral",
          reasoning := "Stock is fairly valued - upside/downside within 15% range" } ↔
      (¬ u > 15 ∧ ¬ u < -15)) ∧
    (classifyRecommendation (.num 15)).recommendation = "HOLD" ∧
    (classifyRecommendation (.num (-15))).recommendation = "HOLD" := by
  have hx : ¬ ((15 : ℚ) > 15) := by norm_num
  have hy : ¬ ((15 : ℚ) < -15) := by norm_num
  have hz : ¬ ((-15 : ℚ) > 15) := by norm_num
  have hw : ¬ ((-15 : ℚ) < -15) := by norm_num
  refine ⟨?_, ?_, ?_, ?_, ?_⟩
  · rw [classifyRecommendation_num]
    by_cases h1 : u > 15
    · rw [if_pos h1]; exact iff_of_true rfl h1
    · rw [if_neg h1]
      by_cases h2 : u < -15
      · rw [if_pos h2]; exact iff_of_false (by decide) h1
      · rw [if_neg h2]; exact iff_of_false (by decide) h1
  · rw [classifyRecommendation_num]
    by_cases h1 : u > 15
    · rw [if_pos h1]
      exact iff_of_false (by decide) (by intro h2; linarith)
    · rw [if_neg h1]
      by_cases h2 : u < -15
      · rw [if_pos h2]; exact iff_of_true rfl h2
      · rw [if_neg h2]; exact iff_of_false (by decide) h2
  · rw [classifyRecommendation_num]
    by_cases h1 : u > 15
    · rw [if_pos h1]; exact iff_of_false (by decide) (fun h => h.1 h1)
    · rw [if_neg h1]
      by_cases h2 : u < -15
      · rw [if_pos h2]; exact iff_of_false (by decide) (fun h => h.2 h2)
      · rw [if_neg h2]; exact iff_of_true rfl ⟨h1, h2⟩
  · rw [classifyRecommendation_num, if_neg hx, if_neg hy]
  · rw [classifyRecommendation_num, if_neg hz, if_neg hw]

/-- C6: for a nonzero current price the upside computation is the exact
arithmetic `(targetPrice - currentPrice) / currentPrice * 100`. -/
theorem computeUpsidePercent_formula (t c : ℚ) (hc : c ≠ 0) :
    computeUpsidePercent (.num t) (.num c) = .num ((t - c) / c * 100) := by
  simp only [computeUpsidePercent, jsSub, jsDiv, if_neg hc, jsMul]

/-- Witness for C6: the spec's two instances, upside 10 and -10. -/
theorem computeUpsidePercent_formula_witness :
    computeUpsidePercent (.num 110000) (.num 100000) = .num 10 ∧
    computeUpsidePercent (.num 90000) (.num 100000) = .num (-10) := by
  constructor
  · rw [computeUpsidePercent_formula 110000 100000 (by norm_num)]; norm_num
  · rw [computeUpsidePercent_formula 90000 100000 (by norm_num)]; norm_num

/-- C5 (code evaluated at the failing input): with a current price of zero
the code raises nothing; the division silently yields `Infinity` (or `NaN`
when the target is also zero) and that value flows into the rendered diff
string via `toFixed(1)`. -/
theorem computeUpsidePercent_zero_price_silent_infinity :
    computeUpsidePercent (.num 110000) (.num 0) = .posInf ∧
    signedDiffText (computeUpsidePercent (.num 110000) (.num 0)) = "+Infinity%" ∧
    computeUpsidePercent (.num 0) (.num 0) = .nan ∧
    signedDiffText (computeUpsidePercent (.num 0) (.num 0)) = "NaN%" := by
  have h1 : computeUpsidePercent (.num 110000) (.num 0) = .posInf := by
    norm_num [computeUpsidePercent, jsSub, jsDiv, jsMul]
  have h3 : computeUpsidePercent (.num 0) (.num 0) = .nan := by
    norm_num [computeUpsidePercent, jsSub, jsDiv, jsMul]
  refine ⟨h1, ?_, h3, ?_⟩ <;>
    simp [h1, h3, signedDiffText, jsGt, jsToFixed1]

/-- C2 (spec-modelled): the weighted average is the positional sum of
`value_i * (weight_i / 100)`, an absent value contributes zero, and no
renormalization happens when the weights do not sum to 100; in particular
the spec's two instances evaluate to 105000 and 73750. -/
theorem computeWeightedAverage_spec :
    (∀ (r : ModelResultsVals) (w : ModelWeights),
        computeWeightedAverage r w =
          (r.fcfe.getD 0) * (w.fcfe / 100) + (r.fcff.getD 0) * (w.fcff / 100) +
          (r.justified_pe.getD 0) * (w.justified_pe / 100) +
          (r.justified_pb.getD 0) * (w.justified_pb / 100)) ∧
    computeWeightedAverage
      { fcfe := some 100000, fcff := some 110000,
        justified_pe := some 90000, justified_pb := some 95000 }
      { fcfe := 50, fcff := 50, justified_pe := 0, justified_pb := 0 } = 105000 ∧
    computeWeightedAverage
      { fcfe := none, fcff := some 110000,
        justified_pe := some 90000, justified_pb := some 95000 }
      { fcfe := 25, fcff := 25, justified_pe := 25, justified_pb := 25 } = 73750 := by
  refine ⟨fun r w => rfl, ?_, ?_⟩ <;> norm_num [computeWeightedAverage]

/-- C4: whenever the response carried a `market_comparison`, its
recommendation string is displayed verbatim and the category comes from a
substring membership test for BUY then SELL (neither present gives
neutral); the local threshold classifier runs exactly when no
engine-supplied recommendation is present. -/
theorem engineRecommendation_precedence (vr : ValuationResults) (c : ℚ) :
    (∀ mc : MarketComparison, vr.market_comparison = some mc →
        (updateRecommendation vr c).recommendation = mc.recommendation ∧
        (updateRecommendation vr c).status =
          (if jsIncludes mc.recommendation "BUY" then "positive"
           else if jsIncludes mc.recommendation "SELL" then "negative"
           else "neutral")) ∧
    (vr.market_comparison = none →
        updateRecommendation vr c =
          classifyRecommendation
            (computeUpsidePercent (.num vr.weighted_average) (.num c))) := by
  constructor
  · intro mc hmc
    simp [updateRecommendation, hmc]
  · intro hmc
    simp [updateRecommendation, hmc]

/-- Witness for C4: an engine string `STRONG BUY` is displayed verbatim
and classed positive by the substring test, and with no engine
recommendation the fallback classifier decides. -/
theorem engineRecommendation_precedence_witness :
    (updateRecommendation mcResults 80000).recommendation = "STRONG BUY" ∧
    (updateRecommendation mcResults 80000).status = "positive" ∧
    updateRecommendation sampleResults 80000 =
      classifyRecommendation (computeUpsidePercent (.num 98750) (.num 80000)) := by
  have h := (engineRecommendation_precedence mcResults 80000).1
    { recommendation := "STRONG BUY" } rfl
  refine ⟨h.1, ?_, (engineRecommendation_precedence sampleResults 80000).2 rfl⟩
  rw [h.2]
  decide

/-- C7: every failed data load — stock fetch rejected, aborted by the
15-second watchdog, non-OK HTTP status on the stock request, or an
application-level failure flag — clears the current symbol, the market
snapshot, the historical series and the held valuation results. -/
theorem loadStockData_failure_clears_session (s : AppState) (input : String)
    (sr : Fetched StockData) (cr : Fetched ChartBody)
    (hsym : jsToUpperCase (jsTrim input) ≠ "")
    (hfail : sr = .networkFailed ∨ sr = .aborted ∨
      (∃ st b, sr = .got st b ∧ (statusOk st = false ∨ b.success = false))) :
    (loadStockData s input sr cr).state.currentStock = none ∧
    (loadStockData s input sr cr).state.stockData = none ∧
    (loadStockData s input sr cr).state.historicalData = none ∧
    (loadStockData s input sr cr).state.valuationResults = none := by
  rcases hfail with h | h | ⟨st, b, h, hbad⟩
  · subst h; cases cr <;> simp [loadStockData, if_neg hsym, clearSession]
  · subst h; cases cr <;> simp [loadStockData, if_neg hsym, clearSession]
  · subst h
    rcases hbad with hb | hb
    · cases cr <;> simp [loadStockData, if_neg hsym, clearSession, hb]
    · cases cr <;> by_cases hok : statusOk st = true <;>
        simp [loadStockData, if_neg hsym, clearSession, hb, hok]

/-- Witness for C7: a populated session is fully cleared by a rejected
stock fetch for the trimmed and upper-cased symbol ` vcb `. -/
theorem loadStockData_failure_clears_session_witness :
    jsToUpperCase (jsTrim " vcb ") ≠ "" ∧
    ((loadStockData sampleSession " vcb " .networkFailed .networkFailed).state.currentStock =
        none ∧
      (loadStockData sampleSession " vcb " .networkFailed .networkFailed).state.stockData =
        none ∧
      (loadStockData sampleSession " vcb " .networkFailed .networkFailed).state.historicalData =
        none ∧
      (loadStockData sampleSession " vcb " .networkFailed .networkFailed).state.valuationResults =
        none) :=
  ⟨by decide,
   loadStockData_failure_clears_session sampleSession " vcb " .networkFailed .networkFailed
     (by decide) (Or.inl rfl)⟩

/-- Counterexample to C8 as stated: after a failed calculation (HTTP 500)
the weighted-aggregation output is not cleared — the previously held
valuation results are retained untouched, while the claim says that output
is cleared. -/
theorem calcFailure_keeps_results_cex :
    statusOk 500 = false ∧
    (calculateValuation sampleSession (.got 500 plainValuationBody)).state.valuationResults =
      some sampleResults ∧
    some sampleResults ≠ (none : Option ValuationResults) := by
  refine ⟨by decide, rfl, by simp⟩

/-- C8 amended: every failed valuation calculation (rejected request,
non-OK HTTP response or application-level failure flag) leaves the entire
session state unchanged: the loaded company data is untouched, and the
weighted-aggregation output is also retained rather than cleared. -/
theorem calculateValuation_failure_leaves_state (s : AppState)
    (resp : Fetched ValuationResponse)
    (hfail : resp = .networkFailed ∨ resp = .aborted ∨
      (∃ st b, resp = .got st b ∧ (statusOk st = false ∨ b.success = false))) :
    (calculateValuation s resp).state = s := by
  cases hcs : s.currentStock with
  | none => simp [calculateValuation, hcs]
  | some sym =>
      rcases hfail with h | h | ⟨st, b, h, hbad⟩
      · subst h; simp [calculateValuation, hcs]
      · subst h; simp [calculateValuation, hcs]
      · subst h
        rcases hbad with hb | hb <;>
          by_cases hok : statusOk st <;>
          simp_all [calculateValuation, hcs]

/-- Witness for C8's amended statement: a rejected calculation request on
a populated session leaves the state exactly as it was. -/
theorem calculateValuation_failure_leaves_state_witness :
    (calculateValuation sampleSession .networkFailed).state = sampleSession :=
  calculateValuation_failure_leaves_state sampleSession .networkFailed (Or.inl rfl)

/-- Counterexample to C1 as stated: on the sample session, raising the
FCFE weight to 100 issues no request and redisplays the cached engine
value 98750, while the weighted average recomputed from the held
per-model values under the new weights is 173750 — the weighted average
is not recomputed from the per-model values. -/
theorem weightChange_keeps_engine_average_cex :
    ((updateModelWeights sampleSession .fcfeWeight 100).state.valuationResults.map
        ValuationResults.weighted_average) = some 98750 ∧
    (updateModelWeights sampleSession .fcfeWeight 100).weightedDisplay =
      some (updateWeightedResults sampleResults 80000) ∧
    (updateWeightedResults sampleResults 80000).weightedResult =
      formatCurrency (some (.num 98750)) ∧
    computeWeightedAverage (heldShareValues sampleResults)
      (updateModelWeights sampleSession .fcfeWeight 100).state.modelWeights = 173750 ∧
    (98750 : ℚ) ≠ 173750 := by
  refine ⟨rfl, rfl, rfl, ?_, by norm_num⟩
  show computeWeightedAverage (heldShareValues sampleResults)
    { fcfe := 100, fcff := 25, justified_pe := 25, justified_pb := 25 } = 173750
  norm_num [computeWeightedAverage, heldShareValues, sampleResults]

/-- C1 amended: when valuation results are already held, a weight change
(slider edit or the normalize action) issues no request to the Model
Engine and recomputes the upside and the recommendation from the held
results and current price; the weighted average itself is not recomputed —
the cached engine-supplied value is redisplayed unchanged. -/
theorem weightChange_no_refetch_cached_average (s : AppState)
    (vr : ValuationResults) (sd : StockData) (slider : SliderId) (value : ℚ)
    (hvr : s.valuationResults = some vr) (hsd : s.stockData = some sd) :
    (updateModelWeights s slider value).requests = [] ∧
    (updateModelWeights s slider value).state.valuationResults = some vr ∧
    (updateModelWeights s slider value).weightedDisplay =
      some (updateWeightedResults vr sd.current_price) ∧
    (updateModelWeights s slider value).recommendationDisplay =
      some (updateRecommendation vr sd.current_price) ∧
    (updateWeightedResults vr sd.current_price).weightedResult =
      formatCurrency (some (.num vr.weighted_average)) ∧
    (normalizeWeights s).requests = [] ∧
    (normalizeWeights s).state.valuationResults = some vr ∧
    (normalizeWeights s).weightedDisplay =
      some (updateWeightedResults vr sd.current_price) := by
  cases slider <;>
    simp [updateModelWeights, normalizeWeights, refreshAfterWeightChange, hvr, hsd,
      updateWeightedResults]

/-- Witness for C1's amended statement: a concrete slider edit on the
sample session issues no network request. -/
theorem weightChange_no_refetch_cached_average_witness :
    (updateModelWeights sampleSession .pbWeight 50).requests = [] :=
  (weightChange_no_refetch_cached_average sampleSession sampleResults sampleStock
    .pbWeight 50 rfl rfl).1

end Valuation
